import Mathlib

/-!
Verification development for the DDC brightness slider utility
(src/ddc-brightness-slider.py). The Python program is shallowly embedded:
the external `ddccontrol` process is an environment mapping an argv to an
execution outcome; Python exceptions are modelled with `Except`; GLib
debounce timers become an explicit countdown in a state record, with events
carrying the gap (in time-units, i.e. milliseconds) since the previous event.
-/

namespace Ddc

/-- Outcome of one `subprocess.run` invocation of the external tool:
either the process finished (with captured stdout and a return code), or the
call raised `TimeoutExpired`, `FileNotFoundError`, or some other exception. -/
inductive ExecOutcome where
  | finished (stdout : String) (returncode : Int)
  | timeout
  | fileNotFound
  | otherError (msg : String)
deriving DecidableEq

/-- A Python exception escaping `subprocess.run`. -/
inductive PyExc where
  | timeoutExpired
  | fileNotFoundError
  | otherException (msg : String)
deriving DecidableEq

/-- The external world: what running a given argv does. -/
def Env : Type := List String → ExecOutcome

/-- Constructor state of `BrightnessController.__init__`: stores `dev:<i2c_dev>` and the register. -/
structure BrightnessController where
  device : String
  register : String
deriving DecidableEq

/-- Constructor from line 47: `self.device = f"dev:{i2c_dev}"`. -/
def mkController (i2c_dev register : String) : BrightnessController :=
  { device := "dev:" ++ i2c_dev, register := register }

/-- argv of the read invocation (line 54): `ddccontrol -r <register> <device>`. -/
def cmdRead (c : BrightnessController) : List String :=
  ["ddccontrol", "-r", c.register, c.device]

/-- argv of the write invocation (line 75):
`ddccontrol -r <register> -w <value> <device>`. -/
def cmdWrite (c : BrightnessController) (value : Int) : List String :=
  ["ddccontrol", "-r", c.register, "-w", toString value, c.device]

/-- Model of `subprocess.run` as seen from Python: an outcome either returns the
completed process or raises. -/
def runSubprocess (env : Env) (argv : List String) : Except PyExc (String × Int) :=
  match env argv with
  | .finished out code => .ok (out, code)
  | .timeout => .error .timeoutExpired
  | .fileNotFound => .error .fileNotFoundError
  | .otherError m => .error (.otherException m)

/-- Rendering of `str(e)` for the diagnostic messages; the exact text is
immaterial to the claims, only that one line is emitted. -/
def excText : PyExc → String
  | .timeoutExpired => "TimeoutExpired"
  | .fileNotFoundError => "FileNotFoundError"
  | .otherException m => m

/-- The `except (subprocess.TimeoutExpired, FileNotFoundError, Exception)`
clause at line 67/79: membership of the raised exception in the caught tuple.
`Exception` is listed, so every modelled exception is caught. -/
def excCaught : PyExc → Bool
  | .timeoutExpired => true
  | .fileNotFoundError => true
  | .otherException _ => true

/-! ### The stdout parser of `get_brightness` (lines 59-66)

The loop scans each line of stdout, first for the regex `\+/(\d+)/(\d+)`,
then for `current\s+value\s*=\s*(\d+)`, returning the first capture as an
integer. Both regexes are backtracking-free (each `\d+`/`\s+` is followed by
a character it cannot match), so a leftmost scan with greedy runs is an
exact model of `re.search`. -/

/-- Python `\s`: space, tab, newline, carriage return, vertical tab, form feed. -/
def pySpace (c : Char) : Bool :=
  c = ' ' || c = '\t' || c = '\n' || c = '\r' || c = Char.ofNat 11 || c = Char.ofNat 12

/-- Numeric value of a run of decimal digits, as Python `int` would read it. -/
def digitsVal (ds : List Char) : Nat :=
  ds.foldl (fun acc c => acc * 10 + (c.toNat - 48)) 0

/-- Try to match `\+/(\d+)/(\d+)` anchored at the head of the character list;
returns the first captured group. -/
def matchPlusSlashAt : List Char → Option Nat
  | '+' :: '/' :: rest =>
    let p := rest.span (fun c => c.isDigit)
    if p.1 = [] then none
    else
      match p.2 with
      | '/' :: rest2 =>
        if (rest2.span (fun c => c.isDigit)).1 = [] then none
        else some (digitsVal p.1)
      | _ => none
  | _ => none

/-- Model of `re.search` of `\+/(\d+)/(\d+)`: leftmost anchored match wins. -/
def searchPlusSlash : List Char → Option Nat
  | [] => none
  | c :: cs =>
    match matchPlusSlashAt (c :: cs) with
    | some v => some v
    | none => searchPlusSlash cs

/-- Match a literal character sequence, returning the remainder. -/
def dropLit : List Char → List Char → Option (List Char)
  | [], rest => some rest
  | _ :: _, [] => none
  | p :: ps, c :: cs => if p = c then dropLit ps cs else none

/-- The literal `current` of the second regex. -/
def litCurrent : List Char := "current".toList

/-- The literal `value` of the second regex. -/
def litValue : List Char := "value".toList

/-- Try to match `current\s+value\s*=\s*(\d+)` anchored at the head;
returns the captured digits. -/
def matchCurrentValueAt (l : List Char) : Option Nat :=
  match dropLit litCurrent l with
  | none => none
  | some r1 =>
    let sp := r1.span pySpace
    if sp.1 = [] then none
    else
      match dropLit litValue sp.2 with
      | none => none
      | some r3 =>
        match (r3.span pySpace).2 with
        | '=' :: r5 =>
          let ds := ((r5.span pySpace).2).span (fun c => c.isDigit)
          if ds.1 = [] then none else some (digitsVal ds.1)
        | _ => none

/-- Model of `re.search` of `current\s+value\s*=\s*(\d+)`: leftmost anchored match. -/
def searchCurrentValue : List Char → Option Nat
  | [] => none
  | c :: cs =>
    match matchCurrentValueAt (c :: cs) with
    | some v => some v
    | none => searchCurrentValue cs

/-- Body of the per-line loop (lines 60-65): first regex, then the second. -/
def lineValue (line : String) : Option Nat :=
  match searchPlusSlash line.toList with
  | some v => some v
  | none => searchCurrentValue line.toList

/-- Split a character list at newlines; `acc` holds the reversed current
line. -/
def splitLinesAux : List Char → List Char → List String
  | acc, [] => [String.mk acc.reverse]
  | acc, '\n' :: cs => String.mk acc.reverse :: splitLinesAux [] cs
  | acc, c :: cs => splitLinesAux (c :: acc) cs

/-- Model of Python `str.splitlines` for newline-separated tool output: split on `\n`,
dropping a final empty piece produced by a trailing newline (Python yields
no empty final line there). -/
def splitLines (s : String) : List String :=
  let parts := splitLinesAux [] s.toList
  if parts.getLast? = some "" then parts.dropLast else parts

/-- First line yielding a value under either pattern, as the `for` loop with
early `return` does. -/
def firstLineValue : List String → Option Nat
  | [] => none
  | l :: ls =>
    match lineValue l with
    | some v => some v
    | none => firstLineValue ls

/-- The whole parsing phase of `get_brightness` applied to captured stdout. -/
def parseBrightnessOutput (out : String) : Option Nat :=
  firstLineValue (splitLines out)

/-- Model of `BrightnessController.get_brightness` (lines 51-69). Returns the parsed
level (or `none` for unparsable output), paired with the list of stderr
diagnostics printed; wrapped in `Except` so that an uncaught exception could
be observed — the catch clause at line 67 in fact catches everything. -/
def get_brightness (env : Env) (c : BrightnessController) :
    Except PyExc (Option Nat × List String) :=
  match runSubprocess env (cmdRead c) with
  | .ok (out, _code) => .ok (parseBrightnessOutput out, [])
  | .error e =>
    if excCaught e then
      .ok (none, ["[ddc-brightness] Error reading brightness: " ++ excText e])
    else
      .error e

/-- Model of `BrightnessController.set_brightness` (lines 71-81). The result carries
the success flag, the trace of subprocess invocations made (the body makes
exactly one), and the stderr diagnostics. -/
def set_brightness (env : Env) (c : BrightnessController) (value : Int) :
    Except PyExc (Bool × List (List String) × List String) :=
  let v := max 0 (min 100 value)
  let argv := cmdWrite c v
  match env argv with
  | .finished _out code => .ok (code == 0, [argv], [])
  | .timeout =>
    if excCaught .timeoutExpired then
      .ok (false, [argv],
        ["[ddc-brightness] Error setting brightness to " ++ toString v ++ ": "
          ++ excText .timeoutExpired])
    else .error .timeoutExpired
  | .fileNotFound =>
    if excCaught .fileNotFoundError then
      .ok (false, [argv],
        ["[ddc-brightness] Error setting brightness to " ++ toString v ++ ": "
          ++ excText .fileNotFoundError])
    else .error .fileNotFoundError
  | .otherError m =>
    if excCaught (.otherException m) then
      .ok (false, [argv],
        ["[ddc-brightness] Error setting brightness to " ++ toString v ++ ": " ++ m])
    else .error (.otherException m)

/-! ### CLI `--get` path (main, lines 511-518) -/

/-- Observable effect of a no-GUI CLI run: lines printed to stdout and
stderr, and the process exit status. -/
structure CliResult where
  stdoutLines : List String
  stderrLines : List String
  exitCode : Nat
deriving DecidableEq

/-- The `--get` branch of `main`: read the brightness; on `some v` print the
value and exit 0; on `none` print an error to stderr and exit 1. Stderr
diagnostics emitted inside `get_brightness` come first. -/
def mainGet (env : Env) (c : BrightnessController) : Except PyExc CliResult :=
  match get_brightness env c with
  | .error e => .error e
  | .ok (some v, logs) => .ok ⟨[toString v], logs, 0⟩
  | .ok (none, logs) => .ok ⟨[], logs ++ ["Error: could not read brightness"], 1⟩

/-! ### The popup slider machine (BrightnessPopup, lines 191-211)

The GLib debounce timer is a countdown: `GLib.timeout_add(150, cb, v)` is
`some (150, v)`; `source_remove` followed by a new `timeout_add` is an
overwrite. An event carries the gap (time-units elapsed) since the previous
event; elapsing time decrements a pending countdown and fires it when it
reaches the gap. `writes` is the trace of values handed to
`controller.set_brightness`. -/

/-- Mutable state of a `BrightnessPopup` relevant to the debounce contract,
plus the trace of controller writes as an observation. -/
structure PopupState where
  is_applying : Bool
  debounceId : Option (Nat × Int)
  scaleValue : Int
  labelText : String
  writes : List Int
deriving DecidableEq

/-- Model of `_apply_brightness` (lines 201-204): clear the debounce handle and hand
the captured value to the controller. -/
def applyBrightness (s : PopupState) (v : Int) : PopupState :=
  { s with debounceId := none, writes := s.writes ++ [v] }

/-- Let `g` time-units pass: a pending debounce timer fires (running
`_apply_brightness`) when its remaining delay is at most `g`. -/
def popupElapse (s : PopupState) (g : Nat) : PopupState :=
  match s.debounceId with
  | none => s
  | some (r, v) =>
    if r ≤ g then applyBrightness { s with debounceId := some (r, v) } v
    else { s with debounceId := some (r - g, v) }

/-- Model of `_on_value_changed` (lines 191-199): guarded by `is_applying`; updates
the label, cancels any pending timer and schedules `_apply_brightness` with
the current scale value after 150 time-units. -/
def onValueChanged (s : PopupState) : PopupState :=
  if s.is_applying then s
  else
    { s with labelText := toString s.scaleValue ++ "%",
             debounceId := some (150, s.scaleValue) }

/-- A user drag moving the slider to position `v`: the scale takes value `v`
and emits `value-changed`. -/
def sliderMoved (s : PopupState) (v : Int) : PopupState :=
  onValueChanged { s with scaleValue := v }

/-- Model of `_on_preset_clicked` (lines 206-211): sets `is_applying`, moves the
scale (whose `value-changed` signal is therefore ignored), updates the
label, clears `is_applying`, and writes immediately. -/
def onPresetClicked (s : PopupState) (v : Int) : PopupState :=
  let s1 : PopupState := { s with is_applying := true }
  let s2 := onValueChanged { s1 with scaleValue := v }
  let s3 : PopupState := { s2 with labelText := toString v ++ "%" }
  let s4 : PopupState := { s3 with is_applying := false }
  { s4 with writes := s4.writes ++ [v] }

/-- The preset values wired to the buttons at line 156. -/
def presetValues : List Int := [1, 10, 25, 50, 75, 100]

/-- UI events reaching the popup. -/
inductive PopupEvent where
  | sliderMove (v : Int)
  | presetClick (v : Int)
deriving DecidableEq

/-- Dispatch one event. -/
def popupHandle (s : PopupState) : PopupEvent → PopupState
  | .sliderMove v => sliderMoved s v
  | .presetClick v => onPresetClicked s v

/-- One step of the timeline: let the gap pass, then handle the event. -/
def popupStep (s : PopupState) (ge : Nat × PopupEvent) : PopupState :=
  popupHandle (popupElapse s ge.1) ge.2

/-- Run a timed event list. -/
def popupRun (s : PopupState) (evs : List (Nat × PopupEvent)) : PopupState :=
  evs.foldl popupStep s

/-- Quiescence: enough time passes that any pending timer fires. -/
def popupSettle (s : PopupState) : PopupState :=
  match s.debounceId with
  | none => s
  | some (_, v) => applyBrightness s v

/-! ### The tray scroll machine (TrayApp, lines 379-397)

`_cached_brightness` is the optimistic cache, `_scroll_debounce_id` the
100 time-unit debounce timer; `_apply_scroll_brightness` dispatches the
write on a background thread, observed here only through the `writes`
trace. The popup display is condensed to the value it shows. -/

/-- Mutable state of the `TrayApp` scroll path. -/
structure TrayState where
  cached : Option Int
  scrollPending : Option (Nat × Int)
  popupVisible : Bool
  popupValue : Int
  writes : List Int
deriving DecidableEq

/-- Model of `_apply_scroll_brightness` (lines 394-397): clear the handle and hand
the value to the controller on a background thread. -/
def applyScrollBrightness (s : TrayState) (v : Int) : TrayState :=
  { s with scrollPending := none, writes := s.writes ++ [v] }

/-- Let `g` time-units pass on the tray state. -/
def trayElapse (s : TrayState) (g : Nat) : TrayState :=
  match s.scrollPending with
  | none => s
  | some (r, v) =>
    if r ≤ g then applyScrollBrightness { s with scrollPending := some (r, v) } v
    else { s with scrollPending := some (r - g, v) }

/-- The tail of `_adjust_brightness` once the cache value `cur` is known
(lines 384-392): clamp `cur + delta` to the range; on a no-op tick return
unchanged; otherwise update the cache and the visible popup and (re)arm the
100 time-unit debounce timer with the new value. -/
def adjustWith (lo hi delta : Int) (s1 : TrayState) (cur : Int) : TrayState :=
  let new_val := max lo (min hi (cur + delta))
  if new_val = cur then s1
  else
    let s2 : TrayState := { s1 with cached := some new_val }
    let s3 : TrayState :=
      if s2.popupVisible then { s2 with popupValue := new_val } else s2
    { s3 with scrollPending := some (100, new_val) }

/-- Model of `_adjust_brightness` (lines 379-392), parameterised by the configured
range and by what `controller.get_brightness` would return for the seeding
read (lines 380-383). -/
def adjustBrightness (lo hi : Int) (readVal : Option Int) (s : TrayState)
    (delta : Int) : TrayState :=
  match s.cached with
  | none =>
    (match readVal with
     | none => { s with cached := none }
     | some cur => adjustWith lo hi delta { s with cached := some cur } cur)
  | some cur => adjustWith lo hi delta s cur

/-- The hard-coded scroll step (line 41): `DEFAULT_SCROLL_STEP = 1`. -/
def DEFAULT_SCROLL_STEP : Int := 1

/-- Scroll directions reaching `_on_scroll_event` / `_on_indicator_scroll`. -/
inductive ScrollDir where
  | up
  | down
deriving DecidableEq

/-- Model of `_on_scroll_event` (lines 367-371): up is `+DEFAULT_SCROLL_STEP`, down
is `-DEFAULT_SCROLL_STEP`. -/
def onScrollEvent (lo hi : Int) (readVal : Option Int) (s : TrayState) :
    ScrollDir → TrayState
  | .up => adjustBrightness lo hi readVal s DEFAULT_SCROLL_STEP
  | .down => adjustBrightness lo hi readVal s (-DEFAULT_SCROLL_STEP)

/-- One step of the tray timeline with raw deltas. -/
def trayStep (lo hi : Int) (readVal : Option Int) (s : TrayState)
    (gd : Nat × Int) : TrayState :=
  adjustBrightness lo hi readVal (trayElapse s gd.1) gd.2

/-- Run a timed list of deltas. -/
def trayRun (lo hi : Int) (readVal : Option Int) (s : TrayState)
    (evs : List (Nat × Int)) : TrayState :=
  evs.foldl (trayStep lo hi readVal) s

/-- One step of the tray timeline with scroll-direction events. -/
def trayScrollStep (lo hi : Int) (readVal : Option Int) (s : TrayState)
    (gd : Nat × ScrollDir) : TrayState :=
  onScrollEvent lo hi readVal (trayElapse s gd.1) gd.2

/-- Run a timed list of scroll-direction events. -/
def trayScrollRun (lo hi : Int) (readVal : Option Int) (s : TrayState)
    (evs : List (Nat × ScrollDir)) : TrayState :=
  evs.foldl (trayScrollStep lo hi readVal) s

/-- Quiescence on the tray state: a pending scroll timer fires. -/
def traySettle (s : TrayState) : TrayState :=
  match s.scrollPending with
  | none => s
  | some (_, v) => applyScrollBrightness s v

/-- Does every delta in the list change the clamped cache value, starting
from `cur`? This is what makes a tick an actual new desired value rather
than a no-op at a range boundary. -/
def allEffective (lo hi : Int) : Int → List Int → Bool
  | _, [] => true
  | cur, d :: ds =>
    let nv := max lo (min hi (cur + d))
    (nv != cur) && allEffective lo hi nv ds

/-- The cache value after applying a list of deltas with clamping. -/
def scrollFinal (lo hi : Int) : Int → List Int → Int
  | cur, [] => cur
  | cur, d :: ds => scrollFinal lo hi (max lo (min hi (cur + d))) ds

/-! ### Concrete fixtures used by witnesses and counterexamples -/

/-- Controller with the default device and register (lines 36-37). -/
def ctl0 : BrightnessController := mkController "/dev/i2c-3" "0x10"

/-- Environment where every invocation finishes with given stdout and code. -/
def envFinished (out : String) (code : Int) : Env := fun _ => .finished out code

/-- Environment where every invocation times out. -/
def envTimeout : Env := fun _ => .timeout

/-- Environment where the executable is missing. -/
def envMissing : Env := fun _ => .fileNotFound

/-- A popup in its initial quiescent state. -/
def popupInit : PopupState :=
  { is_applying := false, debounceId := none, scaleValue := 50,
    labelText := "50%", writes := [] }

/-- A popup with a slider debounce write of 30 already pending. -/
def popupWithPending : PopupState :=
  { is_applying := false, debounceId := some (150, 30), scaleValue := 30,
    labelText := "30%", writes := [] }

/-- Tray state with the cache seeded at 50 and nothing pending. -/
def trayInit50 : TrayState :=
  { cached := some 50, scrollPending := none, popupVisible := false,
    popupValue := 50, writes := [] }

/-- Tray state with the cache pinned at the top of the default range. -/
def trayAtMax : TrayState :=
  { cached := some 100, scrollPending := none, popupVisible := false,
    popupValue := 100, writes := [] }

/-- The tray state reached from `trayInit50` by one effective up-tick. -/
def trayMid51 : TrayState :=
  { cached := some 51, scrollPending := some (100, 51), popupVisible := false,
    popupValue := 50, writes := [] }

/-! ### Helper lemmas -/

/-- If no line yields a value, the line scan yields none. -/
theorem firstLineValue_eq_none (ls : List String)
    (h : ∀ l ∈ ls, lineValue l = none) : firstLineValue ls = none := by
  induction ls with
  | nil => rfl
  | cons a as ih =>
    have ha := h a (by simp)
    simp [firstLineValue, ha]
    exact ih (fun l hl => h l (by simp [hl]))

/-- During a slider burst every gap is shorter than the freshly re-armed
150 time-unit countdown, so running the burst only replaces the pending
write: nothing is written and the pending value tracks the last event. -/
theorem popupRun_burst_aux (vs : List (Nat × Int)) :
    ∀ (s : PopupState) (w : Int), s.is_applying = false →
      s.debounceId = some (150, w) → (∀ p ∈ vs, p.1 < 150) →
      (popupRun s (vs.map (fun p => (p.1, PopupEvent.sliderMove p.2)))).writes
          = s.writes ∧
      (popupRun s (vs.map (fun p => (p.1, PopupEvent.sliderMove p.2)))).debounceId
          = some (150, (vs.map Prod.snd).getLastD w) ∧
      (popupRun s (vs.map (fun p => (p.1, PopupEvent.sliderMove p.2)))).is_applying
          = false := by
  induction vs with
  | nil =>
    intro s w h1 h2 _h3
    exact ⟨rfl, by simpa [popupRun] using h2, h1⟩
  | cons gv vs ih =>
    intro s w h1 h2 h3
    obtain ⟨g, v⟩ := gv
    have hg : g < 150 := h3 (g, v) (by simp)
    have hel : popupElapse s g = { s with debounceId := some (150 - g, w) } := by
      simp [popupElapse, h2, Nat.not_le.mpr hg]
    have ha : (popupStep s (g, PopupEvent.sliderMove v)).is_applying = false := by
      simp [popupStep, popupHandle, sliderMoved, onValueChanged, hel, h1]
    have hb : (popupStep s (g, PopupEvent.sliderMove v)).debounceId
        = some (150, v) := by
      simp [popupStep, popupHandle, sliderMoved, onValueChanged, hel, h1]
    have hw : (popupStep s (g, PopupEvent.sliderMove v)).writes = s.writes := by
      simp [popupStep, popupHandle, sliderMoved, onValueChanged, hel, h1]
    have h3t : ∀ p ∈ vs, p.1 < 150 := fun p hp => h3 p (by simp [hp])
    obtain ⟨w1, w2, w3⟩ :=
      ih (popupStep s (g, PopupEvent.sliderMove v)) v ha hb h3t
    refine ⟨?_, ?_, w3⟩
    · rw [List.map_cons]
      show (popupRun (popupStep s (g, PopupEvent.sliderMove v))
          (vs.map (fun p => (p.1, PopupEvent.sliderMove p.2)))).writes = s.writes
      rw [w1, hw]
    · rw [List.map_cons]
      show (popupRun (popupStep s (g, PopupEvent.sliderMove v))
          (vs.map (fun p => (p.1, PopupEvent.sliderMove p.2)))).debounceId = _
      rw [w2, List.map_cons, List.getLastD_cons]

/-- During a scroll burst of effective ticks every gap is shorter than the
re-armed 100 time-unit countdown, so running the burst only moves the cache
and replaces the pending write. -/
theorem trayRun_burst_aux (ds : List (Nat × Int)) :
    ∀ (lo hi : Int) (readVal : Option Int) (s : TrayState) (cur : Int),
      s.cached = some cur → s.scrollPending = some (100, cur) →
      (∀ p ∈ ds, p.1 < 100) →
      allEffective lo hi cur (ds.map Prod.snd) = true →
      (trayRun lo hi readVal s ds).writes = s.writes ∧
      (trayRun lo hi readVal s ds).cached
          = some (scrollFinal lo hi cur (ds.map Prod.snd)) ∧
      (trayRun lo hi readVal s ds).scrollPending
          = some (100, scrollFinal lo hi cur (ds.map Prod.snd)) := by
  induction ds with
  | nil =>
    intro lo hi readVal s cur h1 h2 _h3 _h4
    exact ⟨rfl, by simpa [trayRun, scrollFinal] using h1,
      by simpa [trayRun, scrollFinal] using h2⟩
  | cons gd ds ih =>
    intro lo hi readVal s cur h1 h2 h3 h4
    obtain ⟨g, d⟩ := gd
    have hg : g < 100 := h3 (g, d) (by simp)
    have hel : trayElapse s g = { s with scrollPending := some (100 - g, cur) } := by
      simp [trayElapse, h2, Nat.not_le.mpr hg]
    rw [List.map_cons, allEffective, Bool.and_eq_true] at h4
    have hne : max lo (min hi (cur + d)) ≠ cur := by
      simpa using h4.1
    have hc : (trayStep lo hi readVal s (g, d)).cached
        = some (max lo (min hi (cur + d))) := by
      by_cases hv : s.popupVisible <;>
        simp [trayStep, hel, adjustBrightness, h1, adjustWith, hne, hv]
    have hp : (trayStep lo hi readVal s (g, d)).scrollPending
        = some (100, max lo (min hi (cur + d))) := by
      by_cases hv : s.popupVisible <;>
        simp [trayStep, hel, adjustBrightness, h1, adjustWith, hne, hv]
    have hw : (trayStep lo hi readVal s (g, d)).writes = s.writes := by
      by_cases hv : s.popupVisible <;>
        simp [trayStep, hel, adjustBrightness, h1, adjustWith, hne, hv]
    have h3t : ∀ p ∈ ds, p.1 < 100 := fun p hpm => h3 p (by simp [hpm])
    obtain ⟨w1, w2, w3⟩ := ih lo hi readVal (trayStep lo hi readVal s (g, d))
        (max lo (min hi (cur + d))) hc hp h3t h4.2
    refine ⟨?_, ?_, ?_⟩
    · show (trayRun lo hi readVal (trayStep lo hi readVal s (g, d)) ds).writes
          = s.writes
      rw [w1, hw]
    · show (trayRun lo hi readVal (trayStep lo hi readVal s (g, d)) ds).cached = _
      rw [w2, List.map_cons, scrollFinal]
    · show (trayRun lo hi readVal (trayStep lo hi readVal s (g, d)) ds).scrollPending
          = _
      rw [w3, List.map_cons, scrollFinal]

/-! ### Claims -/

/-- C1: `set_brightness` makes exactly one subprocess invocation, whose argv
carries exactly the clamped value `max 0 (min 100 v)`; when the process
finishes, the result is success exactly when the exit status is 0; a timeout
or a missing executable yields failure (with a diagnostic). -/
theorem set_brightness_clamps_and_reports (env : Env) (c : BrightnessController)
    (v : Int) :
    (∀ b calls logs, set_brightness env c v = Except.ok (b, calls, logs) →
        calls = [cmdWrite c (max 0 (min 100 v))]) ∧
    (∀ out code, env (cmdWrite c (max 0 (min 100 v))) = .finished out code →
        set_brightness env c v
          = Except.ok (((code == 0 : Bool)), [cmdWrite c (max 0 (min 100 v))], [])
          ∧ (((code == 0 : Bool)) = true ↔ code = 0)) ∧
    (env (cmdWrite c (max 0 (min 100 v))) = .timeout →
        ∃ m, set_brightness env c v
          = Except.ok (false, [cmdWrite c (max 0 (min 100 v))], [m])) ∧
    (env (cmdWrite c (max 0 (min 100 v))) = .fileNotFound →
        ∃ m, set_brightness env c v
          = Except.ok (false, [cmdWrite c (max 0 (min 100 v))], [m])) := by
  refine ⟨?_, ?_, ?_, ?_⟩
  · intro b calls logs h
    cases he : env (cmdWrite c (max 0 (min 100 v))) <;>
      simp [set_brightness, he, excCaught] at h <;> tauto
  · intro out code he
    constructor
    · simp [set_brightness, he]
    · simp
  · intro he
    refine ⟨ "[ddc-brightness] Error setting brightness to "
        ++ toString (max 0 (min 100 v)) ++ ": " ++ excText PyExc.timeoutExpired, ?_⟩
    simp [set_brightness, he, excCaught]
  · intro he
    refine ⟨ "[ddc-brightness] Error setting brightness to "
        ++ toString (max 0 (min 100 v)) ++ ": " ++ excText PyExc.fileNotFoundError, ?_⟩
    simp [set_brightness, he, excCaught]

/-- Witness for C1 at a concrete input: value 150 is clamped to 100 and the
write succeeds when the tool exits 0. -/
theorem set_brightness_clamps_witness :
    set_brightness (envFinished "" 0) ctl0 150
      = Except.ok (true, [cmdWrite ctl0 100], []) := by
  have h := (set_brightness_clamps_and_reports (envFinished "" 0) ctl0 150).2.1
      "" 0 rfl
  exact h.1

/-- C3: the parser yields 70 on the `+/70/100` control line, 42 on the
`current value = 42` line, and Unknown on output in which no line matches
either pattern. -/
theorem parser_patterns_spec :
    parseBrightnessOutput "Control 0x10: +/70/100 [Brightness]" = some 70 ∧
    parseBrightnessOutput " > current value = 42" = some 42 ∧
    ∀ out : String,
      (∀ l ∈ splitLines out,
          searchPlusSlash l.toList = none ∧ searchCurrentValue l.toList = none) →
      parseBrightnessOutput out = none := by
  refine ⟨rfl, rfl, ?_⟩
  intro out h
  unfold parseBrightnessOutput
  apply firstLineValue_eq_none
  intro l hl
  have hv := h l hl
  simp only [String.toList] at hv
  simp [lineValue, hv.1, hv.2]

/-- Witness for C3 on a concrete pattern-free output. -/
theorem parser_patterns_witness :
    parseBrightnessOutput "DDCCI: could not open device" = none :=
  parser_patterns_spec.2.2 "DDCCI: could not open device" (by decide)

/-- C7 counterexample: on syntactically unparsable (pattern-free) tool
output the read returns Unknown but logs no diagnostic at all — the
diagnostic is printed only in the exception handler. -/
theorem get_brightness_unparsable_logs_nothing :
    get_brightness (envFinished "No monitor found" 0) ctl0 = Except.ok (none, []) ∧
    ∀ m ms, get_brightness (envFinished "No monitor found" 0) ctl0
        ≠ Except.ok (none, m :: ms) := by
  have h1 : get_brightness (envFinished "No monitor found" 0) ctl0
      = Except.ok (none, []) := by rfl
  refine ⟨h1, ?_⟩
  intro m ms hcontra
  rw [h1] at hcontra
  simp at hcontra

/-- C7 (amended): `get_brightness` never lets an exception propagate; every
exception from the subprocess call (timeout, missing executable, any other)
collapses to Unknown plus exactly one logged diagnostic, while pattern-free
output collapses to Unknown with no diagnostic. -/
theorem get_brightness_error_collapse (env : Env) (c : BrightnessController) :
    (∃ r, get_brightness env c = Except.ok r) ∧
    (∀ e, runSubprocess env (cmdRead c) = Except.error e →
        get_brightness env c
          = Except.ok (none, ["[ddc-brightness] Error reading brightness: "
              ++ excText e])) ∧
    (∀ out code, env (cmdRead c) = ExecOutcome.finished out code →
        parseBrightnessOutput out = none →
        get_brightness env c = Except.ok (none, [])) := by
  refine ⟨?_, ?_, ?_⟩
  · cases he : env (cmdRead c) <;>
      simp [get_brightness, runSubprocess, he, excCaught]
  · intro e he
    cases e <;> simp [get_brightness, he, excCaught]
  · intro out code he hp
    simp [get_brightness, runSubprocess, he, hp]

/-- Witness for C7 at a concrete timing-out environment. -/
theorem get_brightness_error_collapse_witness :
    get_brightness envTimeout ctl0
      = Except.ok (none,
          ["[ddc-brightness] Error reading brightness: TimeoutExpired"]) :=
  (get_brightness_error_collapse envTimeout ctl0).2.1 PyExc.timeoutExpired rfl

/-- C8: the `--get` CLI path prints the level to stdout and exits 0 when the
read succeeds; when the read fails — in particular on a tool timeout — it
prints nothing to stdout, prints an error to stderr, and exits 1. -/
theorem mainGet_spec (env : Env) (c : BrightnessController) :
    (∀ v logs, get_brightness env c = Except.ok (some v, logs) →
        mainGet env c = Except.ok ⟨[toString v], logs, 0⟩) ∧
    (∀ logs, get_brightness env c = Except.ok (none, logs) →
        mainGet env c
          = Except.ok ⟨[], logs ++ ["Error: could not read brightness"], 1⟩) ∧
    (env (cmdRead c) = ExecOutcome.timeout →
        mainGet env c
          = Except.ok ⟨[], ["[ddc-brightness] Error reading brightness: TimeoutExpired",
              "Error: could not read brightness"], 1⟩) := by
  refine ⟨?_, ?_, ?_⟩
  · intro v logs h
    simp [mainGet, h]
  · intro logs h
    simp [mainGet, h]
  · intro he
    simp [mainGet, get_brightness, runSubprocess, he, excCaught, excText]

/-- Witness for C8 at a concrete timing-out environment. -/
theorem mainGet_spec_witness :
    mainGet envTimeout ctl0
      = Except.ok ⟨[], ["[ddc-brightness] Error reading brightness: TimeoutExpired",
          "Error: could not read brightness"], 1⟩ :=
  (mainGet_spec envTimeout ctl0).2.2 rfl

/-- C6: a preset click hands the preset value to the controller at the event
itself — the write trace grows immediately and the debounce timer is not
involved (it is left exactly as it was). -/
theorem preset_writes_immediately (s : PopupState) (v : Int) :
    (onPresetClicked s v).writes = s.writes ++ [v] ∧
    (onPresetClicked s v).debounceId = s.debounceId :=
  ⟨rfl, rfl⟩

/-- C9: a preset click does not cancel a pending slider debounce timer; the
earlier debounced write still fires after the immediate preset write. -/
theorem preset_preserves_pending (s : PopupState) (v w : Int) (r : Nat)
    (h : s.debounceId = some (r, w)) :
    (onPresetClicked s v).debounceId = some (r, w) ∧
    (popupSettle (onPresetClicked s v)).writes = s.writes ++ [v, w] := by
  have h2 : (onPresetClicked s v).debounceId = some (r, w) := by
    rw [← h]; rfl
  refine ⟨h2, ?_⟩
  have h3 : (onPresetClicked s v).writes = s.writes ++ [v] := rfl
  simp [popupSettle, h2, applyBrightness, h3]

/-- Witness for C9: with a write of 30 pending, clicking the 50 preset
writes 50 at once and the pending 30 still follows. -/
theorem preset_preserves_pending_witness :
    (onPresetClicked popupWithPending 50).debounceId = some (150, 30) ∧
    (popupSettle (onPresetClicked popupWithPending 50)).writes = [50, 30] :=
  preset_preserves_pending popupWithPending 50 30 150 rfl

/-- C10: a scroll tick whose clamped target equals the cached level leaves
the whole tray state — cache, pending timer, popup display, write trace —
unchanged. -/
theorem scroll_noop_at_boundary (lo hi : Int) (readVal : Option Int)
    (s : TrayState) (delta cur : Int) (hc : s.cached = some cur)
    (hb : max lo (min hi (cur + delta)) = cur) :
    adjustBrightness lo hi readVal s delta = s := by
  unfold adjustBrightness
  rw [hc]
  unfold adjustWith
  simp [hb]

/-- Witness for C10: an up-tick at the top of the default range is a no-op. -/
theorem scroll_noop_at_boundary_witness :
    adjustBrightness 0 100 none trayAtMax 1 = trayAtMax :=
  scroll_noop_at_boundary 0 100 none trayAtMax 1 100 rfl (by decide)

/-- Any value newly armed on the scroll debounce timer by the clamping tail
of `_adjust_brightness` lies within the configured range. -/
theorem adjustWith_range (lo hi delta : Int) (s1 : TrayState) (cur : Int)
    (hlh : lo ≤ hi) :
    (adjustWith lo hi delta s1 cur).writes = s1.writes ∧
    ∀ r w, (adjustWith lo hi delta s1 cur).scrollPending = some (r, w) →
      s1.scrollPending = some (r, w) ∨ (lo ≤ w ∧ w ≤ hi) := by
  unfold adjustWith
  by_cases h : max lo (min hi (cur + delta)) = cur
  · simp [h]
    intro r w hw
    exact Or.inl hw
  · by_cases hv : s1.popupVisible <;>
      simp [h, hv] <;>
      exact Or.inr hlh

/-- C4 counterexample: the preset buttons are hard-wired to
`[1, 10, 25, 50, 75, 100]` and hand the raw preset to the write operation;
with a configured maximum of 50, clicking the 100 preset hands 100 — outside
the configured range. -/
theorem preset_exceeds_configured_max :
    (100 : Int) ∈ presetValues ∧
    (onPresetClicked popupInit 100).writes = [100] ∧
    ¬ ((100 : Int) ≤ 50) := by
  refine ⟨by decide, rfl, by decide⟩

/-- C4 (amended): values reaching the write operation from the scroll path
are clamped into the configured range, and slider drags hand exactly the
slider position (confined to the range by the widget); but a preset click
hands the raw preset value, which lies in the default range `[0, 100]` yet
need not lie in a narrower configured range. -/
theorem write_values_in_range :
    (∀ (lo hi : Int) (readVal : Option Int) (s : TrayState) (delta : Int),
        lo ≤ hi →
        (adjustBrightness lo hi readVal s delta).writes = s.writes ∧
        ∀ r w, (adjustBrightness lo hi readVal s delta).scrollPending
            = some (r, w) →
          s.scrollPending = some (r, w) ∨ (lo ≤ w ∧ w ≤ hi)) ∧
    (∀ (p : PopupState) (v : Int), p.is_applying = false →
        (popupSettle (sliderMoved p v)).writes = p.writes ++ [v]) ∧
    (∀ q ∈ presetValues, (0 : Int) ≤ q ∧ q ≤ 100) ∧
    (∀ (p : PopupState) (q : Int),
        (onPresetClicked p q).writes = p.writes ++ [q]) := by
  refine ⟨?_, ?_, by decide, fun p q => rfl⟩
  · intro lo hi readVal s delta hlh
    unfold adjustBrightness
    cases hc : s.cached with
    | some cur => exact adjustWith_range lo hi delta s cur hlh
    | none =>
      cases readVal with
      | none => exact ⟨rfl, fun r w hw => Or.inl hw⟩
      | some cur => exact adjustWith_range lo hi delta _ cur hlh
  · intro p v hp
    simp [sliderMoved, onValueChanged, hp, popupSettle, applyBrightness]

/-- Witness for C4 (amended) at concrete inputs. -/
theorem write_values_in_range_witness :
    (adjustBrightness 0 100 none trayInit50 7).writes = [] ∧
    (popupSettle (sliderMoved popupInit 60)).writes = [60] :=
  ⟨(write_values_in_range.1 0 100 none trayInit50 7 (by decide)).1,
    write_values_in_range.2.1 popupInit 60 rfl⟩

/-- C2: for a burst of values arriving strictly faster than the debounce
delay apart — 150 time-units on the slider path, 100 on the scroll path —
exactly one write reaches the controller once the burst settles, and it
carries the last value of the burst; intermediate values are never written. -/
theorem debounce_coalesces_bursts :
    (∀ (s : PopupState) (g0 : Nat) (v0 : Int) (vs : List (Nat × Int)),
        s.is_applying = false → s.debounceId = none →
        (∀ p ∈ vs, p.1 < 150) →
        (popupSettle (popupRun s ((g0, PopupEvent.sliderMove v0) ::
            vs.map (fun p => (p.1, PopupEvent.sliderMove p.2))))).writes
          = s.writes ++ [(vs.map Prod.snd).getLastD v0]) ∧
    (∀ (lo hi : Int) (readVal : Option Int) (s : TrayState) (g0 : Nat)
        (d0 : Int) (ds : List (Nat × Int)) (cur : Int),
        s.cached = some cur → s.scrollPending = none →
        (∀ p ∈ ds, p.1 < 100) →
        allEffective lo hi cur (d0 :: ds.map Prod.snd) = true →
        (traySettle (trayRun lo hi readVal s ((g0, d0) :: ds))).writes
          = s.writes ++ [scrollFinal lo hi cur (d0 :: ds.map Prod.snd)]) := by
  constructor
  · intro s g0 v0 vs h1 h2 h3
    have hel : popupElapse s g0 = s := by
      simp [popupElapse, h2]
    have ha : (popupStep s (g0, PopupEvent.sliderMove v0)).is_applying = false := by
      simp [popupStep, popupHandle, sliderMoved, onValueChanged, hel, h1]
    have hb : (popupStep s (g0, PopupEvent.sliderMove v0)).debounceId
        = some (150, v0) := by
      simp [popupStep, popupHandle, sliderMoved, onValueChanged, hel, h1]
    have hw : (popupStep s (g0, PopupEvent.sliderMove v0)).writes = s.writes := by
      simp [popupStep, popupHandle, sliderMoved, onValueChanged, hel, h1]
    obtain ⟨w1, w2, _w3⟩ :=
      popupRun_burst_aux vs (popupStep s (g0, PopupEvent.sliderMove v0)) v0 ha hb h3
    show (popupSettle (popupRun (popupStep s (g0, PopupEvent.sliderMove v0))
        (vs.map (fun p => (p.1, PopupEvent.sliderMove p.2))))).writes = _
    simp [popupSettle, w2, applyBrightness, w1, hw]
  · intro lo hi readVal s g0 d0 ds cur h1 h2 h3 h4
    have hel : trayElapse s g0 = s := by
      simp [trayElapse, h2]
    rw [allEffective, Bool.and_eq_true] at h4
    have hne : max lo (min hi (cur + d0)) ≠ cur := by
      simpa using h4.1
    have hc : (trayStep lo hi readVal s (g0, d0)).cached
        = some (max lo (min hi (cur + d0))) := by
      by_cases hv : s.popupVisible <;>
        simp [trayStep, hel, adjustBrightness, h1, adjustWith, hne, hv]
    have hp : (trayStep lo hi readVal s (g0, d0)).scrollPending
        = some (100, max lo (min hi (cur + d0))) := by
      by_cases hv : s.popupVisible <;>
        simp [trayStep, hel, adjustBrightness, h1, adjustWith, hne, hv]
    have hw : (trayStep lo hi readVal s (g0, d0)).writes = s.writes := by
      by_cases hv : s.popupVisible <;>
        simp [trayStep, hel, adjustBrightness, h1, adjustWith, hne, hv]
    obtain ⟨w1, w2, w3⟩ := trayRun_burst_aux ds lo hi readVal
        (trayStep lo hi readVal s (g0, d0)) (max lo (min hi (cur + d0)))
        hc hp h3 h4.2
    show (traySettle (trayRun lo hi readVal
        (trayStep lo hi readVal s (g0, d0)) ds)).writes = _
    simp [traySettle, w3, applyScrollBrightness, w1, hw, scrollFinal]

/-- Witness for C2: a three-event slider burst writes only its last value,
and a three-tick scroll burst writes only its settled value. -/
theorem debounce_coalesces_bursts_witness :
    (popupSettle (popupRun popupInit [(0, PopupEvent.sliderMove 10),
        (50, PopupEvent.sliderMove 20), (149, PopupEvent.sliderMove 30)])).writes
      = [30] ∧
    (traySettle (trayRun 0 100 none trayInit50 [(0, 1), (50, 1), (99, -1)])).writes
      = [51] :=
  ⟨debounce_coalesces_bursts.1 popupInit 0 10 [(50, 20), (149, 30)] rfl rfl
      (by decide),
    debounce_coalesces_bursts.2 0 100 none trayInit50 0 1 [(50, 1), (99, -1)] 50
      rfl rfl (by decide) (by decide)⟩

/-- C5: from cached level 50 with scroll step 1, the burst up, up, down
settles the cache at 51 and, after quiescence, writes exactly the settled
value 51. -/
theorem scroll_up_up_down (g0 g1 g2 : Nat) (h1 : g1 < 100) (h2 : g2 < 100) :
    (traySettle (trayScrollRun 0 100 none trayInit50
        [(g0, ScrollDir.up), (g1, ScrollDir.up), (g2, ScrollDir.down)])).cached
      = some 51 ∧
    (traySettle (trayScrollRun 0 100 none trayInit50
        [(g0, ScrollDir.up), (g1, ScrollDir.up), (g2, ScrollDir.down)])).writes
      = [51] := by
  have hstep1 : trayStep 0 100 none trayInit50 (g0, 1) = trayMid51 := rfl
  have hgaps : ∀ p ∈ [((g1 : Nat), (1 : Int)), (g2, -1)], p.1 < 100 := by
    intro p hpm
    rcases List.mem_cons.mp hpm with h | h
    · rw [h]; exact h1
    · rcases List.mem_cons.mp h with h | h
      · rw [h]; exact h2
      · simp at h
  have hmap : List.map Prod.snd [((g1 : Nat), (1 : Int)), (g2, -1)] = [1, -1] := rfl
  obtain ⟨w1, w2, w3⟩ := trayRun_burst_aux [(g1, 1), (g2, -1)] 0 100 none
      trayMid51 51 rfl rfl hgaps (by rw [hmap]; decide)
  have hconv : trayScrollRun 0 100 none trayInit50
      [(g0, ScrollDir.up), (g1, ScrollDir.up), (g2, ScrollDir.down)]
      = trayRun 0 100 none trayMid51 [(g1, 1), (g2, -1)] := by
    show trayRun 0 100 none (trayStep 0 100 none trayInit50 (g0, 1))
        [(g1, 1), (g2, -1)] = _
    rw [hstep1]
  rw [hconv]
  have hfin : scrollFinal 0 100 51 (List.map Prod.snd [((g1 : Nat), (1 : Int)), (g2, -1)])
      = 51 := by rw [hmap]; decide
  rw [hfin] at w2 w3
  have hmw : trayMid51.writes = [] := rfl
  refine ⟨?_, ?_⟩
  · simp [traySettle, w3, applyScrollBrightness, w2]
  · simp [traySettle, w3, applyScrollBrightness, w1, hmw]

/-- Witness for C5 at concrete gaps of 50 time-units. -/
theorem scroll_up_up_down_witness :
    (traySettle (trayScrollRun 0 100 none trayInit50
        [(0, ScrollDir.up), (50, ScrollDir.up), (50, ScrollDir.down)])).cached
      = some 51 ∧
    (traySettle (trayScrollRun 0 100 none trayInit50
        [(0, ScrollDir.up), (50, ScrollDir.up), (50, ScrollDir.down)])).writes
      = [51] :=
  scroll_up_up_down 0 50 50 (by decide) (by decide)

end Ddc
